import Mathlib

/-!
# personal-blog: a shallow embedding of the REST handlers and of the Home page

The handlers of `routes/blogRoutes.js` and `routes/authRoutes.js` are embedded as
functions from a store state (the three Mongoose collections) to a response and
a new store state.  Every awaited store call may reject; which calls reject is
an explicit input (`Faults`).  The Home page of the frontend is embedded as a
transition function on its React state.
-/

namespace PersonalBlog

set_option autoImplicit false

/-! ## Data model -/

/-- An ObjectId of the document store.  `req.user.id` and `author.toString()`
are the hexadecimal renderings of such ids; rendering is injective, so ids and
their renderings are identified. -/
abbrev ObjectId := Nat

/-- A document of the `User` collection; `password` holds the stored hash. -/
structure User where
  _id : ObjectId
  username : String
  email : String
  password : String
deriving DecidableEq, Repr

/-- A document of the `Blog` collection. -/
structure Blog where
  _id : ObjectId
  title : String
  content : String
  author : ObjectId
  category : Option String
  createdAt : Nat
  updatedAt : Nat
deriving DecidableEq, Repr

/-- A document of the `Activity` collection, with the four fields the handlers
pass to `Activity.create`. -/
structure Activity where
  userId : ObjectId
  action : String
  resource : String
  resourceId : ObjectId
deriving DecidableEq, Repr

/-- The state of the document store: one list per collection, in insertion
order. -/
structure Store where
  users : List User
  blogs : List Blog
  activities : List Activity
deriving DecidableEq, Repr

/-- The store with no document. -/
def Store.init : Store := ⟨[], [], []⟩

/-- Which awaited calls reject.  A field that is `true` makes the named call
throw inside the handler. -/
structure Faults where
  blogFind : Bool
  blogCount : Bool
  blogFindById : Bool
  blogSave : Bool
  blogDelete : Bool
  activityCreate : Bool
  userFindOne : Bool
  userSave : Bool
  comparePassword : Bool
deriving DecidableEq, Repr

/-- Every store call succeeds. -/
def Faults.none : Faults := ⟨false, false, false, false, false, false, false, false, false⟩

/-- A blog after `.populate("author", "username")`: the author reference is
resolved to the username of the user it names, when there is one. -/
structure PopulatedBlog where
  blog : Blog
  authorUsername : Option String
deriving DecidableEq, Repr

/-- The JSON bodies the handlers send. -/
inductive Body where
  | message (m : String)
  | blog (b : Blog)
  | blogPage (totalBlogs : Nat) (currentPage : Nat) (totalPages : Option Nat)
      (blogs : List PopulatedBlog)
  | session (token : String) (username : String)
deriving DecidableEq, Repr

/-- An HTTP response: the status set by `res.status` and the body given to
`.json`. -/
structure Response where
  status : Nat
  body : Body
deriving DecidableEq, Repr

/-! ## Store operations -/

/-- The call `Blog.findById(id)`: the first blog whose `_id` is `id`. -/
def findById (blogs : List Blog) (id : ObjectId) : Option Blog :=
  blogs.find? (fun b => b._id == id)

/-- The call `doc.deleteOne()`: removes the first document whose `_id` is that of the
document. -/
def deleteOne (blogs : List Blog) (doc : Blog) : List Blog :=
  blogs.eraseP (fun b => b._id == doc._id)

/-- The call `User.findOne({ email })`: the first user with that email. -/
def findOneByEmail (users : List User) (email : String) : Option User :=
  users.find? (fun u => u.email == email)

/-- The `_id` index of the `Blog` collection: no two blogs share an `_id`. -/
def Store.UniqueBlogIds (s : Store) : Prop :=
  (s.blogs.map (fun b => b._id)).Nodup

instance (s : Store) : Decidable s.UniqueBlogIds := by
  unfold Store.UniqueBlogIds; infer_instance

/-- A sample store: two users, two blogs of the first user, one blog of the
second. -/
def sampleStore : Store :=
  ⟨[⟨1, "alice", "a@x.com", "h1"⟩, ⟨2, "bob", "b@x.com", "h2"⟩],
   [⟨10, "Hello", "World content", 1, none, 100, 100⟩,
    ⟨11, "Second", "More text", 1, some "news", 200, 200⟩,
    ⟨12, "Other", "By bob", 2, none, 300, 300⟩],
   []⟩

/-! ## Blog API (`routes/blogRoutes.js`) -/

/-- The handler of `POST /create`, after `protect` (which supplies `userId`) and `validateBlog`.
`newId` is the `_id` that `new Blog(...)` generates and `now` the time stamped
on the document.  The activity is written before the blog is saved. -/
def createBlog (f : Faults) (newId : ObjectId) (now : Nat) (userId : ObjectId)
    (title content : String) (s : Store) : Response × Store :=
  let newBlog : Blog := ⟨newId, title, content, userId, none, now, now⟩
  if f.activityCreate then (⟨500, .message "Error creating blog"⟩, s) else
  let s1 : Store :=
    { s with activities := s.activities ++ [⟨userId, "created", "blog", newBlog._id⟩] }
  if f.blogSave then (⟨500, .message "Error creating blog"⟩, s1) else
  let s2 : Store := { s1 with blogs := s1.blogs ++ [newBlog] }
  (⟨201, .blog newBlog⟩, s2)

/-- The handler of `GET /:id`.  The lookup is awaited before the `try` block, so a rejected
lookup sends no response (`none`). -/
def getBlog (f : Faults) (id : ObjectId) (s : Store) : Option Response :=
  if f.blogFindById then none else
  match findById s.blogs id with
  | none => some ⟨404, .message "Blog not found"⟩
  | some blog => some ⟨200, .blog blog⟩

/-- The handler of `DELETE /:id`, after `protect` (which supplies `userId`). -/
def deleteBlog (f : Faults) (userId : ObjectId) (id : ObjectId) (s : Store) :
    Response × Store :=
  if f.blogFindById then (⟨500, .message "Error deleting blog"⟩, s) else
  match findById s.blogs id with
  | none => (⟨404, .message "Blog not found"⟩, s)
  | some deletedBlog =>
    if deletedBlog.author ≠ userId then
      (⟨403, .message "Not authorized to delete this blog"⟩, s)
    else if f.blogDelete then (⟨500, .message "Error deleting blog"⟩, s) else
    let s1 : Store := { s with blogs := deleteOne s.blogs deletedBlog }
    if f.activityCreate then (⟨500, .message "Error deleting blog"⟩, s1) else
    let s2 : Store :=
      { s1 with activities := s1.activities ++ [⟨userId, "deleted", "blog", deletedBlog._id⟩] }
    (⟨200, .message "Blog deleted successfully"⟩, s2)

/-! ## The search pattern: `new RegExp(search, "i")`

The pattern is compiled by the JavaScript `RegExp` constructor and evaluated by
the store.  The model covers a fragment of the pattern language: pattern
characters, `.`, the quantifiers `*`, `+`, `?` (greedy or lazy), `|`, capturing
groups and a backslash before a syntax character.  A source outside the
fragment is reported as `unsupported`, and nothing is said about it.

The case folding of the `i` flag is a table of the engine; it is a parameter
`fold : Char → Char` of the model: two characters match when their foldings are
equal. -/

/-- Regular expressions of the modelled fragment. -/
inductive Re where
  | empty
  | eps
  | chr (c : Char)
  | any
  | seq (a b : Re)
  | alt (a b : Re)
  | star (a : Re)
deriving DecidableEq, Repr

/-- Whether the expression matches the empty string. -/
def Re.nullable : Re → Bool
  | .empty => false
  | .eps => true
  | .chr _ => false
  | .any => false
  | .seq a b => a.nullable && b.nullable
  | .alt a b => a.nullable || b.nullable
  | .star _ => true

/-- The derivative of an expression by one character of the text.  `.` matches
every character but a line feed. -/
def Re.deriv (fold : Char → Char) (c : Char) : Re → Re
  | .empty => .empty
  | .eps => .empty
  | .chr p => if fold p == fold c then .eps else .empty
  | .any => if c == '\n' then .empty else .eps
  | .seq a b =>
    if a.nullable then .alt (.seq (a.deriv fold c) b) (b.deriv fold c)
    else .seq (a.deriv fold c) b
  | .alt a b => .alt (a.deriv fold c) (b.deriv fold c)
  | .star a => .seq (a.deriv fold c) (.star a)

/-- Whether the expression matches some initial segment of the text. -/
def Re.matchAtStart (fold : Char → Char) (r : Re) : List Char → Bool
  | [] => r.nullable
  | c :: t => r.nullable || (r.deriv fold c).matchAtStart fold t

/-- An unanchored match, as `regex.test(text)`: the expression matches
somewhere in the text. -/
def Re.test (fold : Char → Char) (r : Re) : List Char → Bool
  | [] => r.nullable
  | c :: t => r.matchAtStart fold (c :: t) || r.test fold t

/-- The tokens of a pattern source. -/
inductive Tok where
  | lit (c : Char)
  | dot
  | star
  | plus
  | quest
  | bar
  | lparen
  | rparen
deriving DecidableEq, Repr

/-- The outcome of compiling a pattern source: a value, the `SyntaxError` the
constructor throws, or a source outside the modelled fragment. -/
inductive Compiled (α : Type) where
  | ok (a : α)
  | syntaxError
  | unsupported
deriving DecidableEq, Repr

/-- The syntax characters of the pattern language. -/
def isSyntaxChar (c : Char) : Bool :=
  decide (c ∈ ['^', '$', '\\', '.', '*', '+', '?', '(', ')', '[', ']', '{', '}', '|'])

/-- The token of an unescaped character; `none` for a character outside the
fragment (classes, braces, anchors). -/
def classify (c : Char) : Option Tok :=
  if c = '.' then some .dot
  else if c = '*' then some .star
  else if c = '+' then some .plus
  else if c = '?' then some .quest
  else if c = '|' then some .bar
  else if c = '(' then some .lparen
  else if c = ')' then some .rparen
  else if isSyntaxChar c then none
  else some (.lit c)

/-- Splits a pattern source into tokens. -/
def tokenize : List Char → Compiled (List Tok)
  | [] => .ok []
  | c :: rest =>
    if c = '\\' then
      match rest with
      | [] => .syntaxError
      | d :: rest1 =>
        if isSyntaxChar d then
          match tokenize rest1 with
          | .ok ts => .ok (.lit d :: ts)
          | .syntaxError => .syntaxError
          | .unsupported => .unsupported
        else .unsupported
    else if c = '(' ∧ rest.head? = some '?' then .unsupported
    else
      match classify c with
      | none => .unsupported
      | some t =>
        match tokenize rest with
        | .ok ts => .ok (t :: ts)
        | .syntaxError => .syntaxError
        | .unsupported => .unsupported

/-- What precedes the current position in an alternative: nothing that can be
quantified, an atom, or a quantified atom (which a `?` makes lazy). -/
inductive Last where
  | nothing
  | atom
  | quantified
deriving DecidableEq, Repr

/-- An open group while parsing: the finished alternatives and the terms of the
current alternative, both newest first. -/
structure Frame where
  alts : List Re
  terms : List Re
  last : Last
deriving DecidableEq, Repr

/-- The frame of a group just opened. -/
def Frame.new : Frame := ⟨[], [], .nothing⟩

/-- The sequence of the terms of an alternative (given newest first). -/
def mkSeq (terms : List Re) : Re :=
  terms.foldl (fun acc t => .seq t acc) .eps

/-- The disjunction of a closed group. -/
def Frame.close (f : Frame) : Re :=
  f.alts.foldl (fun acc a => .alt a acc) (mkSeq f.terms)

/-- Appends an atom to the current alternative. -/
def Frame.push (f : Frame) (r : Re) : Frame :=
  ⟨f.alts, r :: f.terms, .atom⟩

/-- Applies a quantifier to the last atom; `none` when there is nothing to
repeat. -/
def Frame.quantify (f : Frame) (q : Re → Re) : Option Frame :=
  match f.last, f.terms with
  | .atom, r :: terms => some ⟨f.alts, q r :: terms, .quantified⟩
  | _, _ => none

/-- Parses a token list, with the frame of the innermost open group and the
frames of the groups around it. -/
def parseToks : List Tok → Frame → List Frame → Compiled Re
  | [], f, [] => .ok f.close
  | [], _, _ :: _ => .syntaxError
  | .lit c :: ts, f, st => parseToks ts (f.push (.chr c)) st
  | .dot :: ts, f, st => parseToks ts (f.push .any) st
  | .star :: ts, f, st =>
    match f.quantify (fun r => .star r) with
    | some f1 => parseToks ts f1 st
    | none => .syntaxError
  | .plus :: ts, f, st =>
    match f.quantify (fun r => .seq r (.star r)) with
    | some f1 => parseToks ts f1 st
    | none => .syntaxError
  | .quest :: ts, f, st =>
    if f.last = .quantified then parseToks ts ⟨f.alts, f.terms, .nothing⟩ st
    else
      match f.quantify (fun r => .alt r .eps) with
      | some f1 => parseToks ts f1 st
      | none => .syntaxError
  | .bar :: ts, f, st => parseToks ts ⟨mkSeq f.terms :: f.alts, [], .nothing⟩ st
  | .lparen :: ts, f, st => parseToks ts Frame.new (f :: st)
  | .rparen :: ts, f, st =>
    match st with
    | [] => .syntaxError
    | g :: st1 => parseToks ts (g.push f.close) st1

/-- The constructor call `new RegExp(source, "i")`. -/
def compileRegExp (source : String) : Compiled Re :=
  match tokenize source.data with
  | .ok ts => parseToks ts Frame.new []
  | .syntaxError => .syntaxError
  | .unsupported => .unsupported

/-! ## Listing blogs (`GET /`) -/

/-- The parsed query string of `GET /`.  A parameter that is absent is `none`;
`page` and `limit`, when given, are decimal numerals. -/
structure ListQuery where
  search : Option String
  category : Option String
  page : Option Nat
  limit : Option Nat
  sortBy : Option String
  sortOrder : Option String
deriving DecidableEq, Repr

/-- The `$or` clause built from `search`; an absent or empty `search` adds no
clause. -/
def searchClause (fold : Char → Char) (search : Option String) : Compiled (Blog → Bool) :=
  match search with
  | none => .ok (fun _ => true)
  | some s =>
    if s = "" then .ok (fun _ => true)
    else
      match compileRegExp s with
      | .ok r => .ok (fun b => r.test fold b.title.data || r.test fold b.content.data)
      | .syntaxError => .syntaxError
      | .unsupported => .unsupported

/-- The clause built from `category`: an exact match, when given. -/
def categoryClause (category : Option String) : Blog → Bool :=
  match category with
  | none => fun _ => true
  | some c => if c = "" then fun _ => true else fun b => b.category == some c

/-- The order `.sort({ [sortBy]: 1 })` gives two blogs; a field the blogs do not
have leaves them as they are. -/
def sortLE (sortBy : String) (a b : Blog) : Bool :=
  if sortBy = "createdAt" then decide (a.createdAt ≤ b.createdAt)
  else if sortBy = "updatedAt" then decide (a.updatedAt ≤ b.updatedAt)
  else if sortBy = "title" then !decide (b.title < a.title)
  else if sortBy = "content" then !decide (b.content < a.content)
  else if sortBy = "category" then
    match a.category, b.category with
    | none, _ => true
    | some _, none => false
    | some x, some y => !decide (y < x)
  else if sortBy = "author" then decide (a.author ≤ b.author)
  else if sortBy = "_id" then decide (a._id ≤ b._id)
  else true

/-- The call `.sort({ [sortBy]: sortOrder === "asc" ? 1 : -1 })`. -/
def sortBlogs (sortBy : String) (asc : Bool) (l : List Blog) : List Blog :=
  l.insertionSort (fun a b => (if asc then sortLE sortBy a b else sortLE sortBy b a) = true)

/-- The call `.limit(limit)`: a limit of zero is no limit. -/
def applyLimit (limit : Nat) (l : List Blog) : List Blog :=
  if limit = 0 then l else l.take limit

/-- The call `.populate("author", "username")` on one blog. -/
def populate (users : List User) (b : Blog) : PopulatedBlog :=
  ⟨b, (users.find? (fun u => u._id == b.author)).map (fun u => u.username)⟩

/-- The value of `Math.ceil(totalBlogs / limit)` for a positive `limit`, in exact
arithmetic. -/
def ceilDiv (totalBlogs limit : Nat) : Nat :=
  (totalBlogs + limit - 1) / limit

/-- The handler of `GET /`.  The result is `none` only when `search` is a pattern outside the
modelled fragment.  A `SyntaxError` of the `RegExp` constructor, a rejected
store call and a negative `skip` (which the store rejects) are caught and
answered with 500.  `Math.ceil(totalBlogs / 0)` is not finite and is sent as
`null` (`none`). -/
def listBlogs (fold : Char → Char) (f : Faults) (s : Store) (q : ListQuery) :
    Option Response :=
  let page := q.page.getD 1
  let limit := q.limit.getD 10
  let sortBy := q.sortBy.getD "createdAt"
  let sortOrder := q.sortOrder.getD "desc"
  let skip : Int := ((page : Int) - 1) * (limit : Int)
  match searchClause fold q.search with
  | .unsupported => none
  | .syntaxError => some ⟨500, .message "Error fetching blogs"⟩
  | .ok searchOk =>
    let query : Blog → Bool := fun b => searchOk b && categoryClause q.category b
    if f.blogFind || decide (skip < 0) then some ⟨500, .message "Error fetching blogs"⟩
    else
      let blogs :=
        (applyLimit limit
          ((sortBlogs sortBy (sortOrder == "asc") (s.blogs.filter query)).drop skip.toNat)).map
          (populate s.users)
      if f.blogCount then some ⟨500, .message "Error fetching blogs"⟩
      else
        let totalBlogs := (s.blogs.filter query).length
        some ⟨200, .blogPage totalBlogs page
          (if limit = 0 then none else some (ceilDiv totalBlogs limit)) blogs⟩

/-- The outcome of applying the filter built from `search` alone to a blog. -/
def searchMatches (fold : Char → Char) (search : String) (b : Blog) : Compiled Bool :=
  match searchClause fold (some search) with
  | .ok searchOk => .ok (searchOk b)
  | .syntaxError => .syntaxError
  | .unsupported => .unsupported

/-- The string `s` occurs in `text` as a substring, ignoring the case of
letters: after case folding, the characters of `s` are consecutive characters
of `text`. -/
def containsIgnoreCase (fold : Char → Char) (s text : String) : Prop :=
  s.data.map fold <:+: text.data.map fold

instance (fold : Char → Char) (s text : String) : Decidable (containsIgnoreCase fold s text) := by
  unfold containsIgnoreCase; infer_instance

/-- A character that is not a syntax character of the pattern language: in a
pattern it stands for itself. -/
def isLiteralChar (c : Char) : Bool :=
  !isSyntaxChar c

/-- The expression of a pattern made of literal characters only. -/
def litRe (l : List Char) : Re :=
  (l.map Re.chr).foldr Re.seq Re.eps

/-! ## Authentication (`routes/authRoutes.js`) -/

/-- A body field that fails the check `!field`: missing or the empty string. -/
def falsy (field : Option String) : Bool :=
  match field with
  | none => true
  | some v => v == ""

/-- The body of `POST /register`. -/
structure RegisterBody where
  username : Option String
  email : Option String
  password : Option String
deriving DecidableEq, Repr

/-- The body of `POST /login`. -/
structure LoginBody where
  email : Option String
  password : Option String
deriving DecidableEq, Repr

/-- Modelled from the spec: `user.save()` of `models/User.js`, which is not
among the sources.  The user is appended unless the unique index on `email`
rejects it (`none`). -/
def saveUser (users : List User) (u : User) : Option (List User) :=
  if users.any (fun v => v.email == u.email) then none else some (users ++ [u])

/-- The handler of `POST /register`.  `hash` is the one-way hash `models/User.js` applies to the
password on save, and `newId` the `_id` that `new User(...)` generates. -/
def register (f : Faults) (hash : String → String) (newId : ObjectId)
    (body : RegisterBody) (s : Store) : Response × Store :=
  if falsy body.username || falsy body.email || falsy body.password then
    (⟨400, .message "Email andi Password fields are required."⟩, s)
  else if f.userFindOne then (⟨500, .message "Server error."⟩, s)
  else
    match findOneByEmail s.users (body.email.getD "") with
    | some _ => (⟨400, .message "Email is already registered."⟩, s)
    | none =>
      if f.userSave then (⟨500, .message "Server error."⟩, s)
      else
        match saveUser s.users
            ⟨newId, body.username.getD "", body.email.getD "", hash (body.password.getD "")⟩ with
        | none => (⟨500, .message "Server error."⟩, s)
        | some users => (⟨201, .message "User registered successfully."⟩, { s with users := users })

/-- The handler of `POST /login`.  `comparePassword candidate stored` is the check of
`models/User.js` and `sign` the token `jwt.sign` issues for a user id. -/
def login (f : Faults) (comparePassword : String → String → Bool) (sign : ObjectId → String)
    (body : LoginBody) (s : Store) : Response :=
  if falsy body.email || falsy body.password then ⟨400, .message "All fields are required."⟩
  else if f.userFindOne then ⟨500, .message "Server error."⟩
  else
    match findOneByEmail s.users (body.email.getD "") with
    | none => ⟨400, .message "Invalid credentials."⟩
    | some user =>
      if f.comparePassword then ⟨500, .message "Server error."⟩
      else if !comparePassword (body.password.getD "") user.password then
        ⟨400, .message "Invalid credentials."⟩
      else ⟨200, .session (sign user._id) user.username⟩

/-! ## The Home page (`pages/Home.jsx`) -/

/-- The React state of `Home`. -/
structure HomeState where
  blogs : List PopulatedBlog
  page : Int
  totalPages : Int
  searchTerm : String
deriving DecidableEq, Repr

/-- The initial state given to `useState`. -/
def HomeState.init : HomeState := ⟨[], 1, 1, ""⟩

theorem findById_eq_none_iff (blogs : List Blog) (id : ObjectId) :
    findById blogs id = none ↔ ∀ b ∈ blogs, b._id ≠ id := by
  simp [findById, List.find?_eq_none]

theorem findById_of_mem_of_nodup {blogs : List Blog} {b : Blog}
    (hn : (blogs.map (fun b => b._id)).Nodup) (hb : b ∈ blogs) :
    findById blogs b._id = some b := by
  induction blogs with
  | nil => cases hb
  | cons a l ih =>
    simp only [List.map_cons, List.nodup_cons] at hn
    rcases List.mem_cons.mp hb with rfl | hmem
    · simp [findById]
    · have hne : a._id ≠ b._id := by
        intro heq
        exact hn.1 (heq ▸ List.mem_map_of_mem (fun b => b._id) hmem)
      have := ih hn.2 hmem
      simpa [findById, List.find?_cons, hne] using this

theorem deleteOne_no_id_of_nodup {blogs : List Blog} {b : Blog}
    (hn : (blogs.map (fun b => b._id)).Nodup) (hb : b ∈ blogs) :
    ∀ c ∈ deleteOne blogs b, c._id ≠ b._id := by
  induction blogs with
  | nil => cases hb
  | cons a l ih =>
    simp only [List.map_cons, List.nodup_cons] at hn
    by_cases ha : a._id = b._id
    · have hl : deleteOne (a :: l) b = l := by simp [deleteOne, List.eraseP_cons, ha]
      rw [hl]
      intro c hc hcb
      exact hn.1 (ha ▸ hcb ▸ List.mem_map_of_mem (fun b => b._id) hc)
    · have hmem : b ∈ l := by
        rcases List.mem_cons.mp hb with rfl | hmem
        · exact absurd rfl ha
        · exact hmem
      have hl : deleteOne (a :: l) b = a :: deleteOne l b := by
        simp [deleteOne, List.eraseP_cons, ha]
      rw [hl]
      intro c hc
      rcases List.mem_cons.mp hc with rfl | hc1
      · exact ha
      · exact ih hn.2 hmem c hc1

theorem deleteBlog_preserves_unique (f : Faults) (userId id : ObjectId) (s : Store)
    (hs : s.UniqueBlogIds) : (deleteBlog f userId id s).2.UniqueBlogIds := by
  have hsub : ∀ b : Blog, ((deleteOne s.blogs b).map (fun b => b._id)).Nodup :=
    fun b => hs.sublist ((List.eraseP_sublist s.blogs).map _)
  unfold deleteBlog
  split
  · exact hs
  · split
    · exact hs
    · split
      · exact hs
      · split
        · exact hs
        · split
          · exact hsub _
          · exact hsub _

theorem createBlog_preserves_unique (f : Faults) (newId : ObjectId) (now : Nat)
    (userId : ObjectId) (title content : String) (s : Store) (hs : s.UniqueBlogIds)
    (hfresh : ∀ b ∈ s.blogs, b._id ≠ newId) :
    (createBlog f newId now userId title content s).2.UniqueBlogIds := by
  unfold createBlog
  split
  · exact hs
  · split
    · exact hs
    · simpa [Store.UniqueBlogIds, List.nodup_append] using ⟨hs, hfresh⟩

/-- C1: with the store calls succeeding and blog ids unique in the store,
`deleteBlog` answers 404 and leaves the store unchanged when no blog has the
id; answers 403 and leaves the store (and the blog in it) unchanged when the
blog with that id has another author; and when the caller is the author it
answers 200, the store no longer holds a blog with that id, and `getBlog` for
the id then answers 404. -/
theorem deleteBlog_contract (s : Store) (id userId : ObjectId) (hs : s.UniqueBlogIds) :
    ((∀ b ∈ s.blogs, b._id ≠ id) →
      deleteBlog Faults.none userId id s = (⟨404, .message "Blog not found"⟩, s)) ∧
    (∀ b ∈ s.blogs, b._id = id → b.author ≠ userId →
      deleteBlog Faults.none userId id s
          = (⟨403, .message "Not authorized to delete this blog"⟩, s) ∧
        b ∈ (deleteBlog Faults.none userId id s).2.blogs) ∧
    (∀ b ∈ s.blogs, b._id = id → b.author = userId →
      (deleteBlog Faults.none userId id s).1 = ⟨200, .message "Blog deleted successfully"⟩ ∧
        (deleteBlog Faults.none userId id s).2.blogs = deleteOne s.blogs b ∧
        (∀ c ∈ (deleteBlog Faults.none userId id s).2.blogs, c._id ≠ id) ∧
        getBlog Faults.none id (deleteBlog Faults.none userId id s).2
          = some ⟨404, .message "Blog not found"⟩) := by
  refine ⟨?_, ?_, ?_⟩
  · intro h
    have hf := (findById_eq_none_iff s.blogs id).mpr h
    simp [deleteBlog, Faults.none, hf]
  · intro b hb hid hauth
    have hf : findById s.blogs id = some b := hid ▸ findById_of_mem_of_nodup hs hb
    have h403 : deleteBlog Faults.none userId id s
        = (⟨403, .message "Not authorized to delete this blog"⟩, s) := by
      simp [deleteBlog, Faults.none, hf, hauth]
    rw [h403]
    exact ⟨rfl, hb⟩
  · intro b hb hid hauth
    have hf : findById s.blogs id = some b := hid ▸ findById_of_mem_of_nodup hs hb
    have hgone : ∀ c ∈ deleteOne s.blogs b, c._id ≠ id :=
      hid ▸ deleteOne_no_id_of_nodup hs hb
    have hdel : deleteBlog Faults.none userId id s
        = (⟨200, .message "Blog deleted successfully"⟩,
            ⟨s.users, deleteOne s.blogs b, s.activities ++ [⟨userId, "deleted", "blog", b._id⟩]⟩) := by
      simp [deleteBlog, Faults.none, hf, hauth]
    rw [hdel]
    refine ⟨rfl, rfl, hgone, ?_⟩
    have hnone := (findById_eq_none_iff (deleteOne s.blogs b) id).mpr hgone
    simp [getBlog, Faults.none, hnone]

/-- C1, on the sample store: user 1 deletes blog 10 of user 1, and blog 10 is
then not found. -/
theorem deleteBlog_contract_witness :
    sampleStore.UniqueBlogIds ∧
    getBlog Faults.none 10 (deleteBlog Faults.none 1 10 sampleStore).2
      = some ⟨404, .message "Blog not found"⟩ :=
  ⟨by decide,
   ((deleteBlog_contract sampleStore 10 1 (by decide)).2.2
      ⟨10, "Hello", "World content", 1, none, 100, 100⟩ (by decide) rfl rfl).2.2.2⟩

/-! ## The activity log -/

theorem createBlog_save_rejected (newId : ObjectId) (now : Nat) (userId : ObjectId)
    (title content : String) (s : Store) :
    createBlog ⟨false, false, false, true, false, false, false, false, false⟩ newId now userId
        title content s
      = (⟨500, .message "Error creating blog"⟩,
          ⟨s.users, s.blogs, s.activities ++ [⟨userId, "created", "blog", newId⟩]⟩) := by
  simp [createBlog]

/-- C6: `createBlog` on the empty store, with `Activity.create` succeeding and
`newBlog.save()` rejecting: the answer is 500, no blog is stored (and
`getBlog` answers 404 for the id), yet the log holds a `created` record for
that id. -/
theorem createBlog_record_without_blog :
    createBlog ⟨false, false, false, true, false, false, false, false, false⟩ 7 100 1
        "Hello" "World" Store.init
      = (⟨500, .message "Error creating blog"⟩, ⟨[], [], [⟨1, "created", "blog", 7⟩]⟩) ∧
    getBlog Faults.none 7
        (createBlog ⟨false, false, false, true, false, false, false, false, false⟩ 7 100 1
          "Hello" "World" Store.init).2
      = some ⟨404, .message "Blog not found"⟩ := by
  decide

/-! ## Registration and login -/

theorem findOneByEmail_eq_none_iff (users : List User) (email : String) :
    findOneByEmail users email = none ↔ ∀ u ∈ users, u.email ≠ email := by
  simp [findOneByEmail, List.find?_eq_none]

theorem findOneByEmail_isSome_of_mem {users : List User} {email : String} {u : User}
    (hu : u ∈ users) (he : u.email = email) : ∃ v, findOneByEmail users email = some v := by
  cases hf : findOneByEmail users email with
  | none => exact absurd he ((findOneByEmail_eq_none_iff users email).mp hf u hu)
  | some v => exact ⟨v, rfl⟩

theorem saveUser_of_no_email {users : List User} {u : User}
    (h : ∀ v ∈ users, v.email ≠ u.email) : saveUser users u = some (users ++ [u]) := by
  have : users.any (fun v => v.email == u.email) = false := by
    simpa [List.any_eq_false] using h
  simp [saveUser, this]

theorem falsy_some (v : String) : falsy (some v) = true ↔ v = "" := by
  simp [falsy]

/-- C7: with the store calls succeeding, `register` answers 400 and stores
nothing when a field is empty or missing; otherwise answers 400 "Email is
already registered." and stores nothing when some user has the email; otherwise
answers 201 and appends one user (with the hashed password).  Hence after a
registration answered 201, any complete registration with the same email is
answered 400 "Email is already registered." and stores nothing. -/
theorem register_contract (hash : String → String) (newId : ObjectId) (body : RegisterBody)
    (s : Store) :
    ((falsy body.username = true ∨ falsy body.email = true ∨ falsy body.password = true) →
      register Faults.none hash newId body s
        = (⟨400, .message "Email andi Password fields are required."⟩, s)) ∧
    (∀ username email password : String,
      body = ⟨some username, some email, some password⟩ →
      username ≠ "" → email ≠ "" → password ≠ "" →
      ((∃ u ∈ s.users, u.email = email) →
        register Faults.none hash newId body s
          = (⟨400, .message "Email is already registered."⟩, s)) ∧
      ((∀ u ∈ s.users, u.email ≠ email) →
        register Faults.none hash newId body s
          = (⟨201, .message "User registered successfully."⟩,
              ⟨s.users ++ [⟨newId, username, email, hash password⟩], s.blogs, s.activities⟩)) ∧
      ((register Faults.none hash newId body s).1.status = 201 →
        ∀ (newId2 : ObjectId) (username2 password2 : String),
          username2 ≠ "" → password2 ≠ "" →
          register Faults.none hash newId2 ⟨some username2, some email, some password2⟩
              (register Faults.none hash newId body s).2
            = (⟨400, .message "Email is already registered."⟩,
                (register Faults.none hash newId body s).2))) := by
  have conflict : ∀ (t : Store) (n : ObjectId) (un em pw : String),
      un ≠ "" → em ≠ "" → pw ≠ "" → (∃ u ∈ t.users, u.email = em) →
      register Faults.none hash n ⟨some un, some em, some pw⟩ t
        = (⟨400, .message "Email is already registered."⟩, t) := by
    intro t n un em pw hun hem hpw hex
    obtain ⟨u, hu, he⟩ := hex
    obtain ⟨v, hv⟩ := findOneByEmail_isSome_of_mem hu he
    simp [register, Faults.none, falsy, hun, hem, hpw, hv]
  have fresh : ∀ (t : Store) (n : ObjectId) (un em pw : String),
      un ≠ "" → em ≠ "" → pw ≠ "" → (∀ u ∈ t.users, u.email ≠ em) →
      register Faults.none hash n ⟨some un, some em, some pw⟩ t
        = (⟨201, .message "User registered successfully."⟩,
            ⟨t.users ++ [⟨n, un, em, hash pw⟩], t.blogs, t.activities⟩) := by
    intro t n un em pw hun hem hpw hno
    have hf := (findOneByEmail_eq_none_iff t.users em).mpr hno
    have hsave : saveUser t.users ⟨n, un, em, hash pw⟩
        = some (t.users ++ [⟨n, un, em, hash pw⟩]) := saveUser_of_no_email hno
    simp [register, Faults.none, falsy, hun, hem, hpw, hf, hsave]
  refine ⟨?_, ?_⟩
  · intro h
    have : (falsy body.username || falsy body.email || falsy body.password) = true := by
      rcases h with h | h | h <;> simp [h]
    simp [register, this]
  · intro username email password hbody hun hem hpw
    subst hbody
    refine ⟨conflict s newId username email password hun hem hpw,
      fresh s newId username email password hun hem hpw, ?_⟩
    intro h201 newId2 username2 password2 hun2 hpw2
    by_cases hex : ∃ u ∈ s.users, u.email = email
    · rw [conflict s newId username email password hun hem hpw hex] at h201
      simp at h201
    · have hno : ∀ u ∈ s.users, u.email ≠ email := by
        intro u hu he
        exact hex ⟨u, hu, he⟩
      rw [fresh s newId username email password hun hem hpw hno]
      apply conflict _ newId2 username2 email password2 hun2 hem hpw2
      exact ⟨⟨newId, username, email, hash password⟩, by simp, rfl⟩

/-- C7, on the empty store: "a@x.com" registers, and a second registration with
that email, another name and another password, is a conflict. -/
theorem register_contract_witness :
    (register Faults.none id 1 ⟨some "alice", some "a@x.com", some "pw123"⟩ Store.init).1.status
      = 201 ∧
    (register Faults.none id 2 ⟨some "eve", some "a@x.com", some "other"⟩
        (register Faults.none id 1 ⟨some "alice", some "a@x.com", some "pw123"⟩ Store.init).2).1
      = ⟨400, .message "Email is already registered."⟩ :=
  ⟨by decide,
   congrArg Prod.fst
     (((register_contract id 1 ⟨some "alice", some "a@x.com", some "pw123"⟩ Store.init).2
        "alice" "a@x.com" "pw123" rfl (by decide) (by decide) (by decide)).2.2
        (by decide) 2 "eve" "other" (by decide) (by decide))⟩

/-- C8: with the store calls succeeding, a login whose email matches no user and
a login whose email matches a user whose stored hash does not verify the
password (both with non-empty email and password) receive the same response:
status 400 with the message "Invalid credentials.", which is no session
(token) body. -/
theorem login_uniform_failure (comparePassword : String → String → Bool)
    (sign : ObjectId → String) (s : Store) (email1 password1 email2 password2 : String)
    (u : User) (he1 : email1 ≠ "") (hp1 : password1 ≠ "") (he2 : email2 ≠ "")
    (hp2 : password2 ≠ "") (hno : ∀ v ∈ s.users, v.email ≠ email1)
    (hu : findOneByEmail s.users email2 = some u)
    (hbad : comparePassword password2 u.password = false) :
    login Faults.none comparePassword sign ⟨some email1, some password1⟩ s
      = login Faults.none comparePassword sign ⟨some email2, some password2⟩ s ∧
    login Faults.none comparePassword sign ⟨some email1, some password1⟩ s
      = ⟨400, .message "Invalid credentials."⟩ ∧
    (∀ token username,
      (login Faults.none comparePassword sign ⟨some email1, some password1⟩ s).body
          ≠ .session token username ∧
      (login Faults.none comparePassword sign ⟨some email2, some password2⟩ s).body
          ≠ .session token username) := by
  have hf := (findOneByEmail_eq_none_iff s.users email1).mpr hno
  have r1 : login Faults.none comparePassword sign ⟨some email1, some password1⟩ s
      = ⟨400, .message "Invalid credentials."⟩ := by
    simp [login, Faults.none, falsy, he1, hp1, hf]
  have r2 : login Faults.none comparePassword sign ⟨some email2, some password2⟩ s
      = ⟨400, .message "Invalid credentials."⟩ := by
    simp [login, Faults.none, falsy, he2, hp2, hu, hbad]
  rw [r1, r2]
  refine ⟨rfl, rfl, ?_⟩
  intro token username
  exact ⟨by simp, by simp⟩

/-- C8, on the sample store: an unknown email and a wrong password for
"a@x.com" are answered alike. -/
theorem login_uniform_failure_witness :
    login Faults.none (fun p h => p == h) toString ⟨some "nobody@x.com", some "pw"⟩ sampleStore
      = login Faults.none (fun p h => p == h) toString ⟨some "a@x.com", some "wrong"⟩ sampleStore :=
  (login_uniform_failure (fun p h => p == h) toString sampleStore "nobody@x.com" "pw" "a@x.com"
    "wrong" ⟨1, "alice", "a@x.com", "h1"⟩ (by decide) (by decide) (by decide) (by decide)
    (by decide) (by decide) (by decide)).1

/-! ## The preview text -/

theorem matchAtStart_empty (fold : Char → Char) (t : List Char) :
    Re.empty.matchAtStart fold t = false := by
  induction t with
  | nil => rfl
  | cons c t ih => simp [Re.matchAtStart, Re.nullable, Re.deriv, ih]

theorem matchAtStart_alt (fold : Char → Char) (a b : Re) (t : List Char) :
    (Re.alt a b).matchAtStart fold t = (a.matchAtStart fold t || b.matchAtStart fold t) := by
  induction t generalizing a b with
  | nil => rfl
  | cons c t ih =>
    simp only [Re.matchAtStart, Re.nullable, Re.deriv, ih]
    cases a.nullable <;> cases b.nullable <;> simp

theorem matchAtStart_seq_empty (fold : Char → Char) (r : Re) (t : List Char) :
    (Re.seq .empty r).matchAtStart fold t = false := by
  induction t with
  | nil => rfl
  | cons c t ih => simp [Re.matchAtStart, Re.nullable, Re.deriv, ih]

theorem matchAtStart_seq_eps (fold : Char → Char) (r : Re) (t : List Char) :
    (Re.seq .eps r).matchAtStart fold t = r.matchAtStart fold t := by
  cases t with
  | nil => simp [Re.matchAtStart, Re.nullable]
  | cons c t =>
    simp [Re.matchAtStart, Re.nullable, Re.deriv, matchAtStart_alt, matchAtStart_seq_empty]

theorem matchAtStart_litRe_cons (fold : Char → Char) (p : Char) (l : List Char) (c : Char)
    (t : List Char) :
    (litRe (p :: l)).matchAtStart fold (c :: t)
      = (fold p == fold c && (litRe l).matchAtStart fold t) := by
  show (Re.seq (.chr p) (litRe l)).matchAtStart fold (c :: t) = _
  by_cases h : fold p = fold c
  · simp [Re.matchAtStart, Re.nullable, Re.deriv, h, matchAtStart_seq_eps]
  · simp [Re.matchAtStart, Re.nullable, Re.deriv, h, matchAtStart_seq_empty]

theorem matchAtStart_litRe (fold : Char → Char) (l t : List Char) :
    (litRe l).matchAtStart fold t = true ↔ l.map fold <+: t.map fold := by
  induction l generalizing t with
  | nil => cases t <;> simp [litRe, Re.matchAtStart, Re.nullable]
  | cons p l ih =>
    cases t with
    | nil => simp [litRe, Re.matchAtStart, Re.nullable]
    | cons c t =>
      rw [matchAtStart_litRe_cons, List.map_cons, List.map_cons, List.cons_prefix_cons,
        Bool.and_eq_true, ih, beq_iff_eq]

theorem test_litRe (fold : Char → Char) (l t : List Char) :
    (litRe l).test fold t = true ↔ l.map fold <:+: t.map fold := by
  induction t with
  | nil => cases l <;> simp [litRe, Re.test, Re.nullable]
  | cons c t ih =>
    rw [List.map_cons, List.infix_cons_iff, ← ih, ← List.map_cons, ← matchAtStart_litRe]
    simp [Re.test]

theorem classify_of_isLiteralChar {c : Char} (h : isLiteralChar c = true) :
    c ≠ '\\' ∧ c ≠ '(' ∧ classify c = some (.lit c) := by
  have hs : isSyntaxChar c = false := by simpa [isLiteralChar] using h
  have h0 := hs
  simp only [isSyntaxChar, decide_eq_false_iff_not, List.mem_cons, List.mem_singleton,
    List.not_mem_nil, or_false, not_or] at h0
  obtain ⟨h1, h2, h3, h4, h5, h6, h7, h8, h9, h10, h11, h12, h13, h14⟩ := h0
  refine ⟨h3, h8, ?_⟩
  simp [classify, hs, h4, h5, h6, h7, h14, h8, h9]

theorem tokenize_literal (l : List Char) (h : ∀ c ∈ l, isLiteralChar c = true) :
    tokenize l = .ok (l.map Tok.lit) := by
  induction l with
  | nil => rfl
  | cons c l ih =>
    obtain ⟨hb, hp, hc⟩ := classify_of_isLiteralChar (h c (List.mem_cons_self c l))
    have ih1 := ih (fun d hd => h d (List.mem_cons_of_mem c hd))
    rw [tokenize.eq_def]
    simp [hb, hp, hc, ih1]

theorem parseToks_literal (l : List Char) (f : Frame) :
    parseToks (l.map Tok.lit) f []
      = .ok (f.alts.foldl (fun acc a => .alt a acc) (mkSeq ((l.map Re.chr).reverse ++ f.terms))) := by
  induction l generalizing f with
  | nil => simp [parseToks, Frame.close]
  | cons c l ih =>
    simp only [List.map_cons, parseToks, ih, Frame.push, List.reverse_cons, List.append_assoc,
      List.singleton_append]

theorem compileRegExp_literal (search : String)
    (h : ∀ c ∈ search.data, isLiteralChar c = true) :
    compileRegExp search = .ok (litRe search.data) := by
  unfold compileRegExp
  rw [tokenize_literal search.data h]
  simp only [parseToks_literal, Frame.new, List.foldl_nil, List.append_nil, mkSeq, litRe,
    List.foldl_reverse]

/-- C4 (counterexample): the pattern "." matches a blog whose title and content
do not contain a full stop; the pattern "(" is a syntax error, so a blog whose
content contains "(" is not matched and the request is answered 500; "c++" and
"*" are syntax errors as well. -/
theorem search_is_not_substring :
    (searchMatches Char.toLower "." ⟨1, "a", "b", 1, none, 0, 0⟩ = .ok true ∧
      ¬ containsIgnoreCase Char.toLower "." "a" ∧ ¬ containsIgnoreCase Char.toLower "." "b") ∧
    (searchMatches Char.toLower "(" ⟨1, "t", "f(x)", 1, none, 0, 0⟩ = .syntaxError ∧
      containsIgnoreCase Char.toLower "(" "f(x)" ∧
      listBlogs Char.toLower Faults.none ⟨[], [⟨1, "t", "f(x)", 1, none, 0, 0⟩], []⟩
          ⟨some "(", none, none, none, none, none⟩
        = some ⟨500, .message "Error fetching blogs"⟩) ∧
    searchMatches Char.toLower "c++" ⟨1, "t", "c++", 1, none, 0, 0⟩ = .syntaxError ∧
    searchMatches Char.toLower "*" ⟨1, "t", "a*b", 1, none, 0, 0⟩ = .syntaxError := by
  decide

/-- C4 (amended): for every non-empty search string without a syntax character
of the pattern language, and every blog, the filter matches the blog if and
only if the string occurs, ignoring letter case (whatever the case folding of
the engine), as a substring of the title or of the content. -/
theorem search_literal_contract (fold : Char → Char) (search : String) (b : Blog)
    (hne : search ≠ "") (hlit : ∀ c ∈ search.data, isLiteralChar c = true) :
    searchMatches fold search b
      = .ok (decide (containsIgnoreCase fold search b.title
          ∨ containsIgnoreCase fold search b.content)) := by
  have hb : ((litRe search.data).test fold b.title.data
        || (litRe search.data).test fold b.content.data)
      = decide (containsIgnoreCase fold search b.title
          ∨ containsIgnoreCase fold search b.content) := by
    rw [Bool.eq_iff_iff]
    simp only [Bool.or_eq_true, test_litRe, containsIgnoreCase, decide_eq_true_eq]
  simp only [searchMatches, searchClause, hne, if_false, compileRegExp_literal search hlit, hb]

/-- C4 (amended), on a blog whose content alone contains the search string, in
another case. -/
theorem search_literal_contract_witness :
    ¬ containsIgnoreCase Char.toLower "world" "Hello" ∧
    containsIgnoreCase Char.toLower "world" "World content" ∧
    searchMatches Char.toLower "world" ⟨10, "Hello", "World content", 1, none, 100, 100⟩
      = .ok true :=
  ⟨by decide, by decide,
   (search_literal_contract Char.toLower "world"
      ⟨10, "Hello", "World content", 1, none, 100, 100⟩ (by decide) (by decide)).trans
     (by decide)⟩

/-! ## The Home page -/

end PersonalBlog
